import Mathlib

/-!
Verification development for the Canvas AI grading assistant.

The definitions below are a shallow embedding of the TypeScript source:

* `lib/canvas-api.ts` — URL normalization, request-URL construction and the
  generic request primitive of `CanvasApiClient`;
* `app/api/canvas/courses/[courseId]/assignments/[assignmentId]/submissions/[userId]/route.ts`
  — the GET and PUT route handlers, including the credential-resolution block
  that is textually identical across every Canvas route handler in the repo;
* `app/api/ai/grade-submission/route.ts` — the AI grading handler.

External effects (the Supabase queries, the `fetch` call, the language-model
call, `request.json()`) are modelled by passing their outcomes in explicitly as
an environment; JavaScript exceptions are modelled as their message strings and
`console.*` logging is dropped.  JavaScript string truthiness (`null` and `""`
are falsy) is modelled by `truthy` on `Option String`.
-/

namespace CanvasGrading

/-- Embedding of JavaScript `String.prototype.startsWith`. -/
def strStartsWith (s p : String) : Bool := p.data.isPrefixOf s.data

/-- Embedding of JavaScript `String.prototype.endsWith` (a suffix test, phrased
through reversed character lists). -/
def strEndsWith (s p : String) : Bool := p.data.reverse.isPrefixOf s.data.reverse

/-- Truthiness of a nullable JavaScript string: `null` and `""` are falsy,
every other string is truthy. -/
def truthy : Option String → Bool
  | none => false
  | some s => !s.isEmpty

/-- Embedding of `normalizeCanvasUrl` from `lib/canvas-api.ts`: prefix
`https://` when the input starts with neither `http://` nor `https://`, then
append a trailing `/` when the result does not already end in one. -/
def normalizeCanvasUrl (url : String) : String :=
  let normalizedUrl :=
    if !strStartsWith url "http://" && !strStartsWith url "https://" then
      "https://" ++ url
    else
      url
  if !strEndsWith normalizedUrl "/" then normalizedUrl ++ "/" else normalizedUrl

/-- State of a `CanvasApiClient` instance from `lib/canvas-api.ts`. -/
structure CanvasApiClient where
  baseUrl : String
  token : String
deriving DecidableEq

/-- Embedding of `createCanvasApiClient` / the `CanvasApiClient` constructor,
which stores `normalizeCanvasUrl(canvasUrl)` as `baseUrl`. -/
def createCanvasApiClient (canvasUrl token : String) : CanvasApiClient :=
  { baseUrl := normalizeCanvasUrl canvasUrl, token := token }

/-- Embedding of `endpoint.replace(/^\//, "")`: the regular expression removes
at most one leading slash. -/
def stripLeadingSlash (e : String) : String :=
  match e.data with
  | '/' :: rest => ⟨rest⟩
  | _ => e

/-- The request URL built at the top of `CanvasApiClient.request`:
`` `${this.baseUrl}api/v1/${endpoint.replace(/^\//, "")}` ``. -/
def CanvasApiClient.requestUrl (c : CanvasApiClient) (endpoint : String) : String :=
  c.baseUrl ++ "api/v1/" ++ stripLeadingSlash endpoint

/-- Outcome of the `await fetch(url, ...)` call inside
`CanvasApiClient.request`, for a resolved response.  `errorField` is the
outcome of reading the error body as JSON and extracting
`errorData.errors?.[0]?.message`: `none` models a body that fails to parse as
JSON, `some none` a parsed body with no message at that path, and
`some (some m)` a message `m` (which the source still discards when falsy). -/
structure HttpResp (α : Type) where
  ok : Bool
  status : Nat
  statusText : String
  errorField : Option (Option String)
  body : α
deriving DecidableEq

/-- Outcome of the underlying `fetch`: either the promise resolves to a
response or it rejects with an error message. -/
inductive FetchOutcome (α : Type) where
  | resolve (resp : HttpResp α)
  | reject (message : String)
deriving DecidableEq

/-- What `CanvasApiClient.request` delivers to its caller: `.ok (some v)` for a
successful body, `.ok none` for the `return null` paths, `.thrown m` for a
thrown `Error` with message `m`. -/
inductive RequestResult (α : Type) where
  | ok (value : Option α)
  | thrown (message : String)
deriving DecidableEq

/-- Embedding of the body of `CanvasApiClient.request` from `lib/canvas-api.ts`
given the request URL and the outcome of the underlying `fetch`.  On a
non-`ok` response the error message is extracted from the JSON body (falling
back to the status line, also when the extracted message is falsy); on a
rejection whose message is exactly `"Failed to fetch"` the message is rewritten
to mention the URL.  In every error case, `throwOnError` selects between
throwing the message and returning `null` after a `console.warn`. -/
def requestOn (url : String) (throwOnError : Bool) (outcome : FetchOutcome α) :
    RequestResult α :=
  match outcome with
  | .resolve resp =>
      if !resp.ok then
        let statusLine :=
          "Canvas API error: " ++ toString resp.status ++ " " ++ resp.statusText
        let errorMessage :=
          match resp.errorField with
          | some (some m) => if m.isEmpty then statusLine else m
          | _ => statusLine
        if throwOnError then .thrown errorMessage else .ok none
      else
        .ok (some resp.body)
  | .reject message =>
      if message = "Failed to fetch" then
        let enhanced :=
          "Network error when connecting to Canvas API at " ++ url ++
            ". Please check your Canvas URL and network connection."
        if throwOnError then .thrown enhanced else .ok none
      else
        if throwOnError then .thrown message else .ok none

/-- Embedding of `CanvasApiClient.request`: build the URL from the stored
(normalized) base URL and the endpoint, then run the request body. -/
def CanvasApiClient.request (c : CanvasApiClient) (endpoint : String)
    (throwOnError : Bool) (outcome : FetchOutcome α) : RequestResult α :=
  requestOn (c.requestUrl endpoint) throwOnError outcome

/-- Row shape selected from the `user_settings` table
(`select("canvas_url, canvas_token")`); both columns are nullable. -/
structure UserSettingsRow where
  canvas_url : Option String
  canvas_token : Option String
deriving DecidableEq

/-- The `user_metadata` bag on the Supabase user, restricted to the two fields
the credential lookup reads; absent fields are `none`. -/
structure UserMetadata where
  canvas_url : Option String
  canvas_token : Option String
deriving DecidableEq

/-- Embedding of the credential lookup shared verbatim by every Canvas route
handler: start from the `user_settings` row when the query succeeded and the
row is truthy (a failed or empty query leaves both bindings `null`), then, when
either binding is falsy, overwrite both from the user metadata provided both
metadata fields are truthy.  Returns the final values of the mutable
`canvasUrl` / `canvasToken` bindings. -/
def resolveCredentials (settings : Option UserSettingsRow) (meta : UserMetadata) :
    Option String × Option String :=
  let fromTable : Option String × Option String :=
    match settings with
    | some row => (row.canvas_url, row.canvas_token)
    | none => (none, none)
  if !truthy fromTable.1 || !truthy fromTable.2 then
    if truthy meta.canvas_url && truthy meta.canvas_token then
      (meta.canvas_url, meta.canvas_token)
    else
      fromTable
  else
    fromTable

/-- Embedding of the final guard `if (!canvasUrl || !canvasToken) return 400`:
`some (url, token)` is exactly the pair subsequently passed to
`createCanvasApiClient`, and `none` is the 400 credentials-missing path. -/
def resolvedCreds (settings : Option UserSettingsRow) (meta : UserMetadata) :
    Option (String × String) :=
  match resolveCredentials settings meta with
  | (some u, some t) => if u.isEmpty || t.isEmpty then none else some (u, t)
  | _ => none

/-- Canvas user object shape used by the submission route. -/
structure CanvasUser where
  id : String
  name : String
  sortable_name : String
  avatar_url : String
deriving DecidableEq

/-- Canvas submission shape, restricted to the fields the route handler reads
or writes; `user` is the possibly-absent embedded user object. -/
structure Submission where
  id : String
  user_id : String
  assignment_id : String
  user : Option CanvasUser
deriving DecidableEq

/-- Canvas assignment shape; the degraded branch passes the fetched assignment
through unchanged, so only an identifying field is needed. -/
structure Assignment where
  id : String
  name : String
deriving DecidableEq

/-- The minimal user object the GET handler synthesizes for a given `userId`. -/
def placeholderUser (userId : String) : CanvasUser :=
  { id := userId
    name := "Student " ++ userId
    sortable_name := "Student " ++ userId
    avatar_url := "" }

/-- Embedding of the success-path patch `if (!submission.user) submission.user = {...}`:
an absent user object is replaced by the placeholder. -/
def ensureUser (sub : Submission) (userId : String) : Submission :=
  match sub.user with
  | some _ => sub
  | none => { sub with user := some (placeholderUser userId) }

/-- The synthesized submission returned on the degraded branch of the GET
handler (`id: "unknown"` with the route parameters echoed back). -/
def placeholderSubmission (userId assignmentId : String) : Submission :=
  { id := "unknown"
    user_id := userId
    assignment_id := assignmentId
    user := some (placeholderUser userId) }

/-- Environment of one GET submission request: the route parameters together
with the outcomes of every external call the handler performs.
`fetchSubmission = .ok none` models a falsy submission value (the
`if (!submission)` check); `.error m` models `canvasApi.getSubmission`
throwing with message `m`. -/
structure GetSubmissionEnv where
  courseId : String
  assignmentId : String
  userId : String
  session : Bool
  settings : Option UserSettingsRow
  metadata : UserMetadata
  fetchSubmission : Except String (Option Submission)
  fetchAssignment : Except String Assignment

/-- Responses the GET submission handler can produce: plain
`NextResponse.json({ error }, { status })` bodies, the 200 success body
`{ submission }`, and the 200 degraded body `{ error, assignment, submission }`. -/
inductive GetSubmissionResponse where
  | jsonError (error : String) (status : Nat)
  | success (submission : Submission)
  | degraded (error : String) (assignment : Assignment) (submission : Submission)
deriving DecidableEq

/-- HTTP status of a GET submission response. -/
def GetSubmissionResponse.status : GetSubmissionResponse → Nat
  | .jsonError _ s => s
  | .success _ => 200
  | .degraded _ _ _ => 200

/-- Embedding of the GET handler of
`.../submissions/[userId]/route.ts`: parameter guard, session guard,
credential resolution, then the submission fetch with its degraded
assignment-only fallback. -/
def getSubmissionHandler (env : GetSubmissionEnv) : GetSubmissionResponse :=
  if env.courseId.isEmpty || env.assignmentId.isEmpty || env.userId.isEmpty then
    .jsonError "Course ID, Assignment ID, and User ID are required" 400
  else if !env.session then
    .jsonError "Unauthorized" 401
  else
    match resolvedCreds env.settings env.metadata with
    | none => .jsonError "Canvas credentials not found. Please complete onboarding." 400
    | some _ =>
      match env.fetchSubmission with
      | .ok none => .jsonError "Submission not found" 404
      | .ok (some sub) => .success (ensureUser sub env.userId)
      | .error _ =>
        match env.fetchAssignment with
        | .ok assignment =>
            .degraded "Failed to fetch submission details" assignment
              (placeholderSubmission env.userId env.assignmentId)
        | .error _ =>
            .jsonError "Failed to fetch submission and assignment details" 404

/-- Optional text comment of a grade-update payload. -/
structure GradeComment where
  text_comment : String
deriving DecidableEq

/-- Grade-update payload forwarded unchanged to
`canvasApi.updateSubmissionGrade`. -/
structure GradePayload where
  posted_grade : String
  comment : Option GradeComment
deriving DecidableEq

/-- Environment of one PUT grade-update request.  `body` is the outcome of
`request.json()`; `updateResult` the outcome of
`canvasApi.updateSubmissionGrade`. -/
structure PutSubmissionEnv where
  courseId : String
  assignmentId : String
  userId : String
  session : Bool
  settings : Option UserSettingsRow
  metadata : UserMetadata
  body : Except String GradePayload
  updateResult : Except String Submission

/-- Responses of the PUT handler. -/
inductive PutSubmissionResponse where
  | jsonError (error : String) (status : Nat)
  | success (submission : Submission)
deriving DecidableEq

/-- HTTP status of a PUT response. -/
def PutSubmissionResponse.status : PutSubmissionResponse → Nat
  | .jsonError _ s => s
  | .success _ => 200

/-- Embedding of the PUT handler of the same route file.  The second component
records whether the Canvas API client was invoked: it is `false` on every path
that returns before `canvasApi.updateSubmissionGrade` is called. -/
def putSubmissionHandler (env : PutSubmissionEnv) : PutSubmissionResponse × Bool :=
  if env.courseId.isEmpty || env.assignmentId.isEmpty || env.userId.isEmpty then
    (.jsonError "Course ID, Assignment ID, and User ID are required" 400, false)
  else if !env.session then
    (.jsonError "Unauthorized" 401, false)
  else
    match resolvedCreds env.settings env.metadata with
    | none =>
        (.jsonError "Canvas credentials not found. Please complete onboarding." 400, false)
    | some _ =>
      match env.body with
      | .error m => (.jsonError m 500, false)
      | .ok _ =>
        match env.updateResult with
        | .ok sub => (.success sub, true)
        | .error m => (.jsonError m 500, true)

/-- Fields destructured from the JSON body of a POST `ai/grade-submission`
request.  Absent fields are `none`; `pointsPossible` is modelled by its string
interpolation (a falsy value — absent, `0` or `""` — is `none` or `some ""`). -/
structure AiRequestBody where
  assignmentDescription : Option String
  submissionContent : Option String
  pointsPossible : Option String
  rubric : Option String
deriving DecidableEq

/-- Embedding of the prompt template literal of
`app/api/ai/grade-submission/route.ts`, with the three interpolations
`pointsPossible || "Not specified"`, the conditional rubric block and
`pointsPossible || 100` spelled out. -/
def buildPrompt (assignmentDescription submissionContent : String)
    (pointsPossible rubric : Option String) : String :=
  "\nYou are an expert educational assistant helping a teacher grade a student submission.\n\nASSIGNMENT DESCRIPTION:\n"
    ++ assignmentDescription
    ++ "\n\nPOINTS POSSIBLE: "
    ++ (match pointsPossible with
        | some p => if p.isEmpty then "Not specified" else p
        | none => "Not specified")
    ++ "\n\n"
    ++ (match rubric with
        | some r => if r.isEmpty then "" else "RUBRIC:\n" ++ r
        | none => "")
    ++ "\n\nSTUDENT SUBMISSION:\n"
    ++ submissionContent
    ++ "\n\nPlease provide a comprehensive evaluation of this submission. Your response should include:\n\n1. A suggested grade (out of "
    ++ (match pointsPossible with
        | some p => if p.isEmpty then "100" else p
        | none => "100")
    ++ " points)\n2. Detailed feedback explaining the grade, highlighting strengths and areas for improvement\n3. Specific references to the submission content to justify your evaluation\n4. Constructive suggestions for improvement\n\nFormat your response as a JSON object with the following structure:\n\x7b\n  \"grade\": number,\n  \"feedback\": \"detailed feedback text\",\n  \"strengths\": [\"strength1\", \"strength2\", ...],\n  \"areasForImprovement\": [\"area1\", \"area2\", ...],\n  \"summary\": \"brief summary of evaluation\"\n\x7d\n"

/-- The prompt the handler builds for a given request body (the guard has
already ensured both required fields are truthy when this is used). -/
def aiPrompt (b : AiRequestBody) : String :=
  buildPrompt (b.assignmentDescription.getD "") (b.submissionContent.getD "")
    b.pointsPossible b.rubric

/-- Environment of one POST `ai/grade-submission` request: the outcome of
`request.json()` and the outcome of `generateText` as a function of the prompt
sent to the model (`.error m` models the call throwing with message `m`).
Deliberately, the environment carries no session or user identity: the source
route performs no authentication check of any kind. -/
structure AiEnv where
  body : Except String AiRequestBody
  model : String → Except String String

/-- Responses of the AI grading handler: the 400 missing-fields body, the 200
body carrying the parsed grading object, the 500 parse-failure body
`{ error, rawResponse }`, and the catch-all 500 body. -/
inductive AiResponse (α : Type) where
  | badRequest (error : String)
  | success (grading : α)
  | parseError (error : String) (rawResponse : String)
  | serverError (error : String)
deriving DecidableEq

/-- HTTP status of an AI grading response. -/
def AiResponse.status : AiResponse α → Nat
  | .badRequest _ => 400
  | .success _ => 200
  | .parseError _ _ => 500
  | .serverError _ => 500

/-- Embedding of the POST handler of `app/api/ai/grade-submission/route.ts`.
`parse` abstracts `JSON.parse` (`none` models a throw).  The second component
of the result is the list of prompts sent to the language model, in order; the
source calls `generateText` exactly once on the reachable path and never
retries. -/
def aiGradeHandler (parse : String → Option α) (env : AiEnv) :
    AiResponse α × List String :=
  match env.body with
  | .error m => (.serverError m, [])
  | .ok b =>
    if !truthy b.assignmentDescription || !truthy b.submissionContent then
      (.badRequest "Assignment description and submission content are required", [])
    else
      match env.model (aiPrompt b) with
      | .error m => (.serverError m, [aiPrompt b])
      | .ok text =>
        match parse text with
        | some grading => (.success grading, [aiPrompt b])
        | none => (.parseError "Failed to parse AI response" text, [aiPrompt b])

/-! ### Helper lemmas about the string primitives -/

/-- Appending a trailing slash yields a string that ends with a slash. -/
lemma strEndsWith_append_slash (s : String) : strEndsWith (s ++ "/") "/" = true := by
  simp [strEndsWith, String.data_append, List.isPrefixOf_iff_prefix]

/-- Every string prefixed with `p` starts with `p`. -/
lemma strStartsWith_append_left (p u : String) : strStartsWith (p ++ u) p = true := by
  simp [strStartsWith, String.data_append, List.isPrefixOf_iff_prefix]

/-- Appending on the right preserves a prefix. -/
lemma strStartsWith_append_right (s p t : String) (h : strStartsWith s p = true) :
    strStartsWith (s ++ t) p = true := by
  simp [strStartsWith, String.data_append, List.isPrefixOf_iff_prefix] at h ⊢
  exact h.trans (List.prefix_append _ _)

/-- The string `s ++ "/"` ends with a double slash exactly when `s` itself ends
with a slash. -/
lemma strEndsWith_append_slash_double (s : String) :
    strEndsWith (s ++ "/") "//" = strEndsWith s "/" := by
  simp [strEndsWith, String.data_append, List.isPrefixOf]

/-- A single-character suffix test only looks at the last character, so a
nonempty right summand decides it. -/
lemma strEndsWith_slash_of_append (s u : String) (h : u.data ≠ []) :
    strEndsWith (s ++ u) "/" = strEndsWith u "/" := by
  simp only [strEndsWith, String.data_append, List.reverse_append]
  match hu : u.data.reverse with
  | [] => exact absurd (by simpa using congrArg List.reverse hu) h
  | a :: t => simp [List.isPrefixOf]

/-- A string of the form `"Student " ++ u` is never empty. -/
lemma studentName_isEmpty_false (u : String) : ("Student " ++ u).isEmpty = false := by
  rcases he : ("Student " ++ u).isEmpty with _ | _
  · rfl
  · exfalso
    have h : ("Student " ++ u) = "" := (String.isEmpty_iff _).mp he
    have hd := congrArg String.data h
    rw [String.data_append] at hd
    simp at hd

/-- Intermediate form of `normalizeCanvasUrl`: the result is the slash step
applied to a string `n` (the scheme step's output) that carries a scheme. -/
lemma normalize_step (url : String) :
    ∃ n : String,
      normalizeCanvasUrl url = (if !strEndsWith n "/" then n ++ "/" else n) ∧
      (strStartsWith n "http://" || strStartsWith n "https://") = true := by
  by_cases h : (!strStartsWith url "http://" && !strStartsWith url "https://") = true
  · refine ⟨"https://" ++ url, ?_, ?_⟩
    · simp [normalizeCanvasUrl, h]
    · simp [strStartsWith_append_left]
  · refine ⟨url, ?_, ?_⟩
    · have h' : (!strStartsWith url "http://" && !strStartsWith url "https://") = false := by
        revert h
        cases (!strStartsWith url "http://" && !strStartsWith url "https://") <;> simp
      simp [normalizeCanvasUrl, h']
    · revert h
      cases ha : strStartsWith url "http://" <;>
        cases hb : strStartsWith url "https://" <;> simp

/-- Normalized URLs always carry a scheme. -/
lemma normalize_scheme (url : String) :
    (strStartsWith (normalizeCanvasUrl url) "http://"
      || strStartsWith (normalizeCanvasUrl url) "https://") = true := by
  obtain ⟨n, heq, hn⟩ := normalize_step url
  rw [heq]
  split
  · cases h1 : strStartsWith n "http://" with
    | true => simp [strStartsWith_append_right _ _ _ h1]
    | false =>
        have h2 : strStartsWith n "https://" = true := by revert hn; simp [h1]
        simp [strStartsWith_append_right _ _ _ h2]
  · exact hn

/-- Normalized URLs always end with a slash. -/
lemma normalize_trailing (url : String) :
    strEndsWith (normalizeCanvasUrl url) "/" = true := by
  obtain ⟨n, heq, _⟩ := normalize_step url
  rw [heq]
  split
  · exact strEndsWith_append_slash _
  · rename_i h
    simpa using h

/-- Strings that already carry a scheme and a trailing slash are fixed points
of `normalizeCanvasUrl`. -/
lemma normalize_fixed (s : String)
    (h1 : (strStartsWith s "http://" || strStartsWith s "https://") = true)
    (h2 : strEndsWith s "/" = true) : normalizeCanvasUrl s = s := by
  cases h : strStartsWith s "http://" with
  | true => simp [normalizeCanvasUrl, h, h2]
  | false =>
      have hb : strStartsWith s "https://" = true := by revert h1; simp [h]
      simp [normalizeCanvasUrl, h, hb, h2]

/-! ### Claim theorems -/

/-- Claim C7 — `normalizeCanvasUrl` maps `"foo.edu"` to `"https://foo.edu/"`,
maps `"https://foo.edu"` to `"https://foo.edu/"`, maps `"https://foo.edu/"` to
itself, and is idempotent on every input. -/
theorem claim_C7_normalizeCanvasUrl_examples_and_idempotent :
    normalizeCanvasUrl "foo.edu" = "https://foo.edu/"
    ∧ normalizeCanvasUrl "https://foo.edu" = "https://foo.edu/"
    ∧ normalizeCanvasUrl "https://foo.edu/" = "https://foo.edu/"
    ∧ ∀ url : String,
        normalizeCanvasUrl (normalizeCanvasUrl url) = normalizeCanvasUrl url := by
  refine ⟨by decide, by decide, by decide, ?_⟩
  intro url
  exact normalize_fixed _ (normalize_scheme url) (normalize_trailing url)

/-- Claim C3 is false as stated: normalization only appends a slash when none
is present, so an input that already ends in two slashes keeps both, the
normalized base URL does not have exactly one trailing slash, and the request
URL joins base and `api/v1` with a double slash. -/
theorem claim_C3_counterexample :
    normalizeCanvasUrl "https://foo.edu//" = "https://foo.edu//"
    ∧ normalizeCanvasUrl "https://foo.edu//" ≠ "https://foo.edu/"
    ∧ strEndsWith (normalizeCanvasUrl "https://foo.edu//") "//" = true
    ∧ (createCanvasApiClient "https://foo.edu//" "tok").requestUrl "courses"
        = "https://foo.edu//api/v1/courses" := by
  decide

/-- Claim C3, amended — the request URL equals
`normalizeCanvasUrl baseUrl ++ "api/v1/" ++ endpointWithOneLeadingSlashRemoved`;
normalization guarantees a scheme and at least one trailing slash, and yields
exactly one trailing slash whenever the nonempty input base URL did not already
end in a slash. -/
theorem claim_C3_amended_requestUrl_shape (url token endpoint : String) :
    (createCanvasApiClient url token).requestUrl endpoint
        = normalizeCanvasUrl url ++ "api/v1/" ++ stripLeadingSlash endpoint
    ∧ strEndsWith (normalizeCanvasUrl url) "/" = true
    ∧ (strStartsWith (normalizeCanvasUrl url) "http://"
        || strStartsWith (normalizeCanvasUrl url) "https://") = true
    ∧ (url.isEmpty = false → strEndsWith url "/" = false →
        strEndsWith (normalizeCanvasUrl url) "//" = false) := by
  refine ⟨rfl, normalize_trailing url, normalize_scheme url, ?_⟩
  intro hne hslash
  have hdata : url.data ≠ [] := by
    intro hd
    have hurl : url = "" := String.ext (by rw [hd])
    rw [hurl] at hne
    exact absurd hne (by decide)
  by_cases h : (!strStartsWith url "http://" && !strStartsWith url "https://") = true
  · have hn' : strEndsWith ("https://" ++ url) "/" = false := by
      rw [strEndsWith_slash_of_append _ _ hdata]
      exact hslash
    simp [normalizeCanvasUrl, h, hn', strEndsWith_append_slash_double]
  · have h' : (!strStartsWith url "http://" && !strStartsWith url "https://") = false := by
      revert h
      cases (!strStartsWith url "http://" && !strStartsWith url "https://") <;> simp
    simp [normalizeCanvasUrl, h', hslash, strEndsWith_append_slash_double]

/-- Witness for the amended claim C3 at a concrete scheme-less base URL. -/
theorem claim_C3_amended_witness :
    (createCanvasApiClient "foo.edu" "tok").requestUrl "courses"
        = normalizeCanvasUrl "foo.edu" ++ "api/v1/" ++ stripLeadingSlash "courses"
    ∧ strEndsWith (normalizeCanvasUrl "foo.edu") "/" = true
    ∧ (strStartsWith (normalizeCanvasUrl "foo.edu") "http://"
        || strStartsWith (normalizeCanvasUrl "foo.edu") "https://") = true
    ∧ strEndsWith (normalizeCanvasUrl "foo.edu") "//" = false := by
  obtain ⟨h1, h2, h3, h4⟩ := claim_C3_amended_requestUrl_shape "foo.edu" "tok" "courses"
  exact ⟨h1, h2, h3, h4 (by decide) (by decide)⟩

/-- Claim C2 is false as stated: with `throwOnError = false`, a low-level
network failure (`fetch` rejecting with `"Failed to fetch"`) makes the request
primitive return `null` to its caller — the rewritten message is only logged,
never delivered to the caller. -/
theorem claim_C2_counterexample :
    (createCanvasApiClient "https://school.edu" "tok").request "courses" false
        (FetchOutcome.reject (α := Unit) "Failed to fetch")
      = RequestResult.ok none := by
  decide

/-- Claim C2, amended — on a low-level network failure the error message is
rewritten to mention the specific request URL and suggest checking the Canvas
URL and network connection, and that message is thrown to the caller when
`throwOnError` is true; when `throwOnError` is false the caller instead
receives `null` (the message is only logged). -/
theorem claim_C2_amended_network_error_rewrite (c : CanvasApiClient) (endpoint : String) :
    c.request endpoint true (FetchOutcome.reject (α := Unit) "Failed to fetch")
        = RequestResult.thrown
            ("Network error when connecting to Canvas API at " ++ c.requestUrl endpoint
              ++ ". Please check your Canvas URL and network connection.")
    ∧ c.request endpoint false (FetchOutcome.reject (α := Unit) "Failed to fetch")
        = RequestResult.ok none := by
  constructor <;> simp [CanvasApiClient.request, requestOn]

/-- Helper to turn a refuted Bool equation into its negation. -/
lemma bool_false_of_not_true {b : Bool} (h : ¬ b = true) : b = false := by
  cases b
  · rfl
  · exact absurd rfl h

/-- When the settings row exists, the mutable credential bindings end up
holding either the row's pair or the metadata pair, wholesale. -/
lemma resolveCredentials_cases_some (row : UserSettingsRow) (meta : UserMetadata) :
    resolveCredentials (some row) meta = (row.canvas_url, row.canvas_token)
    ∨ resolveCredentials (some row) meta = (meta.canvas_url, meta.canvas_token) := by
  by_cases h1 : (!truthy row.canvas_url || !truthy row.canvas_token) = true
  · by_cases h2 : (truthy meta.canvas_url && truthy meta.canvas_token) = true
    · right; simp [resolveCredentials, h1, h2]
    · left; simp [resolveCredentials, h1, bool_false_of_not_true h2]
  · left; simp [resolveCredentials, bool_false_of_not_true h1]

/-- Null bindings are falsy. -/
lemma truthy_none : truthy none = false := rfl

/-- Without a settings row, the bindings end up `(null, null)` or hold the
metadata pair, wholesale. -/
lemma resolveCredentials_cases_none (meta : UserMetadata) :
    resolveCredentials none meta = (none, none)
    ∨ resolveCredentials none meta = (meta.canvas_url, meta.canvas_token) := by
  by_cases h2 : (truthy meta.canvas_url && truthy meta.canvas_token) = true
  · right; simp [resolveCredentials, truthy_none, h2]
  · left; simp [resolveCredentials, truthy_none, bool_false_of_not_true h2]

/-- Characterization of the final credential guard: it succeeds exactly when
both bindings hold truthy (non-null, non-empty) strings. -/
lemma resolvedCreds_eq_some_iff (settings : Option UserSettingsRow) (meta : UserMetadata)
    (u t : String) :
    resolvedCreds settings meta = some (u, t) ↔
      resolveCredentials settings meta = (some u, some t)
      ∧ u.isEmpty = false ∧ t.isEmpty = false := by
  unfold resolvedCreds
  rcases hr : resolveCredentials settings meta with ⟨pu, pt⟩
  rcases pu with _ | a <;> rcases pt with _ | b
  · simp
  · simp
  · simp
  · show (if (a.isEmpty || b.isEmpty) = true then none else some (a, b)) = some (u, t) ↔
      (some a, some b) = (some u, some t) ∧ u.isEmpty = false ∧ t.isEmpty = false
    by_cases hcond : (a.isEmpty || b.isEmpty) = true
    · rw [if_pos hcond]
      constructor
      · intro h
        exact absurd h (by simp)
      · rintro ⟨hpair, h1, h2⟩
        exfalso
        simp only [Prod.mk.injEq, Option.some.injEq] at hpair
        obtain ⟨rfl, rfl⟩ := hpair
        rw [h1, h2] at hcond
        simp at hcond
    · have hcond' : (a.isEmpty || b.isEmpty) = false := bool_false_of_not_true hcond
      rw [if_neg hcond]
      constructor
      · intro h
        simp only [Option.some.injEq, Prod.mk.injEq] at h
        obtain ⟨rfl, rfl⟩ := h
        refine ⟨rfl, ?_⟩
        revert hcond'
        cases a.isEmpty <;> cases b.isEmpty <;> simp
      · rintro ⟨hpair, h1, h2⟩
        simp only [Prod.mk.injEq, Option.some.injEq] at hpair
        obtain ⟨rfl, rfl⟩ := hpair
        rfl

/-- A successfully resolved credential pair comes wholesale from the settings
row or wholesale from the metadata bag. -/
lemma resolvedCreds_sources (settings : Option UserSettingsRow) (meta : UserMetadata)
    (u t : String) (h : resolvedCreds settings meta = some (u, t)) :
    (∃ row, settings = some row ∧ row.canvas_url = some u ∧ row.canvas_token = some t)
    ∨ (meta.canvas_url = some u ∧ meta.canvas_token = some t) := by
  rw [resolvedCreds_eq_some_iff] at h
  obtain ⟨hpair, _, _⟩ := h
  rcases settings with _ | row
  · rcases resolveCredentials_cases_none meta with hc | hc
    · rw [hc] at hpair
      exact absurd hpair (by simp)
    · right
      rw [hc] at hpair
      exact ⟨congrArg Prod.fst hpair, congrArg Prod.snd hpair⟩
  · rcases resolveCredentials_cases_some row meta with hc | hc
    · left
      rw [hc] at hpair
      exact ⟨row, rfl, congrArg Prod.fst hpair, congrArg Prod.snd hpair⟩
    · right
      rw [hc] at hpair
      exact ⟨congrArg Prod.fst hpair, congrArg Prod.snd hpair⟩

/-- Claim C4 is false as stated: the credential guard tests JavaScript
truthiness, not nullness, so a settings row whose `canvas_url` is the non-null
empty string falls through to the metadata fallback, and the differing
metadata pair is the one handed to `createCanvasApiClient`. -/
theorem claim_C4_counterexample :
    ({ canvas_url := some "", canvas_token := some "settings-token" } :
        UserSettingsRow).canvas_url = some ""
    ∧ ({ canvas_url := some "", canvas_token := some "settings-token" } :
        UserSettingsRow).canvas_token = some "settings-token"
    ∧ resolvedCreds (some { canvas_url := some "", canvas_token := some "settings-token" })
        { canvas_url := some "https://meta.example.edu", canvas_token := some "meta-token" }
        = some ("https://meta.example.edu", "meta-token")
    ∧ resolvedCreds (some { canvas_url := some "", canvas_token := some "settings-token" })
        { canvas_url := some "https://meta.example.edu", canvas_token := some "meta-token" }
        ≠ some ("", "settings-token") := by
  decide

/-- Claim C4, amended — if the settings row exists and both its `canvas_url`
and `canvas_token` are non-null and non-empty, the resolved credential pair is
exactly that row's pair, whatever the metadata bag holds. -/
theorem claim_C4_amended_settings_row_wins (row : UserSettingsRow) (meta : UserMetadata)
    (u t : String)
    (hu : row.canvas_url = some u) (ht : row.canvas_token = some t)
    (hue : u.isEmpty = false) (hte : t.isEmpty = false) :
    resolvedCreds (some row) meta = some (u, t) := by
  simp [resolvedCreds, resolveCredentials, truthy, hu, ht, hue, hte]

/-- Witness for the amended claim C4: the settings row wins over a differing
metadata pair. -/
theorem claim_C4_amended_witness :
    resolvedCreds
        (some { canvas_url := some "https://settings.example.edu",
                canvas_token := some "settings-token" })
        { canvas_url := some "https://meta.example.edu", canvas_token := some "meta-token" }
      = some ("https://settings.example.edu", "settings-token") :=
  claim_C4_amended_settings_row_wins _ _ _ _ rfl rfl (by decide) (by decide)

/-- Claim C10 — for a request that passes the parameter and session guards,
the resolved credential pair is never mixed across sources: either both values
are the settings row's, or both are the metadata bag's, or resolution fails
and the handler returns the 400 credentials-missing response. -/
theorem claim_C10_credentials_never_mixed (env : GetSubmissionEnv)
    (hc : env.courseId.isEmpty = false) (ha : env.assignmentId.isEmpty = false)
    (hu : env.userId.isEmpty = false) (hs : env.session = true) :
    (∃ u t, resolvedCreds env.settings env.metadata = some (u, t)
      ∧ ((∃ row, env.settings = some row
            ∧ row.canvas_url = some u ∧ row.canvas_token = some t)
          ∨ (env.metadata.canvas_url = some u ∧ env.metadata.canvas_token = some t)))
    ∨ (resolvedCreds env.settings env.metadata = none
        ∧ getSubmissionHandler env
            = .jsonError "Canvas credentials not found. Please complete onboarding." 400) := by
  cases hres : resolvedCreds env.settings env.metadata with
  | none =>
      right
      refine ⟨rfl, ?_⟩
      simp [getSubmissionHandler, hc, ha, hu, hs, hres]
  | some p =>
      left
      obtain ⟨u, t⟩ := p
      exact ⟨u, t, rfl, resolvedCreds_sources _ _ _ _ hres⟩

/-- Environment used by the witness of claim C10: a request whose settings row
holds a URL but a null token, and whose metadata bag holds a full pair. -/
def envC10 : GetSubmissionEnv :=
  { courseId := "c301"
    assignmentId := "a9"
    userId := "u12"
    session := true
    settings := some { canvas_url := some "https://table.example.edu", canvas_token := none }
    metadata := { canvas_url := some "https://bag.example.edu", canvas_token := some "bag-token" }
    fetchSubmission := .ok none
    fetchAssignment := .error "unused" }

/-- Witness for claim C10 at a concrete environment. -/
theorem claim_C10_witness :
    (∃ u t, resolvedCreds envC10.settings envC10.metadata = some (u, t)
      ∧ ((∃ row, envC10.settings = some row
            ∧ row.canvas_url = some u ∧ row.canvas_token = some t)
          ∨ (envC10.metadata.canvas_url = some u ∧ envC10.metadata.canvas_token = some t)))
    ∨ (resolvedCreds envC10.settings envC10.metadata = none
        ∧ getSubmissionHandler envC10
            = .jsonError "Canvas credentials not found. Please complete onboarding." 400) :=
  claim_C10_credentials_never_mixed envC10 (by decide) (by decide) (by decide) rfl

/-- Claim C1 — when the submission fetch throws but the subsequent assignment
fetch succeeds (on an authenticated, credentialed request with nonempty route
parameters), the GET handler returns status 200 with a body carrying an error
field, the fetched assignment, and a placeholder submission whose id is
`"unknown"`, whose `user_id` and `assignment_id` echo the request parameters,
and whose user has id `userId` and name `"Student <userId>"`. -/
theorem claim_C1_degraded_partial_success (env : GetSubmissionEnv) (msg : String)
    (assignment : Assignment) (cred : String × String)
    (hc : env.courseId.isEmpty = false) (ha : env.assignmentId.isEmpty = false)
    (hu : env.userId.isEmpty = false) (hs : env.session = true)
    (hcred : resolvedCreds env.settings env.metadata = some cred)
    (hsub : env.fetchSubmission = .error msg)
    (hass : env.fetchAssignment = .ok assignment) :
    getSubmissionHandler env
      = .degraded "Failed to fetch submission details" assignment
          { id := "unknown"
            user_id := env.userId
            assignment_id := env.assignmentId
            user := some { id := env.userId
                           name := "Student " ++ env.userId
                           sortable_name := "Student " ++ env.userId
                           avatar_url := "" } }
    ∧ (getSubmissionHandler env).status = 200 := by
  have hh : getSubmissionHandler env
      = .degraded "Failed to fetch submission details" assignment
          { id := "unknown"
            user_id := env.userId
            assignment_id := env.assignmentId
            user := some { id := env.userId
                           name := "Student " ++ env.userId
                           sortable_name := "Student " ++ env.userId
                           avatar_url := "" } } := by
    simp [getSubmissionHandler, hc, ha, hu, hs, hcred, hsub, hass,
      placeholderSubmission, placeholderUser]
  exact ⟨hh, by rw [hh]; rfl⟩

/-- Environment used by the witness of claim C1: valid parameters and
credentials, a throwing submission fetch, a succeeding assignment fetch. -/
def envC1 : GetSubmissionEnv :=
  { courseId := "c101"
    assignmentId := "a42"
    userId := "u7"
    session := true
    settings := some { canvas_url := some "https://x.example.edu", canvas_token := some "tok" }
    metadata := { canvas_url := none, canvas_token := none }
    fetchSubmission := .error "boom"
    fetchAssignment := .ok { id := "a42", name := "Essay" } }

/-- Witness for claim C1 at a concrete environment. -/
theorem claim_C1_witness :
    getSubmissionHandler envC1
      = .degraded "Failed to fetch submission details" { id := "a42", name := "Essay" }
          { id := "unknown"
            user_id := "u7"
            assignment_id := "a42"
            user := some { id := "u7"
                           name := "Student u7"
                           sortable_name := "Student u7"
                           avatar_url := "" } }
    ∧ (getSubmissionHandler envC1).status = 200 :=
  claim_C1_degraded_partial_success envC1 "boom" { id := "a42", name := "Essay" }
    ("https://x.example.edu", "tok") (by decide) (by decide) (by decide) rfl
    (by decide) rfl rfl

/-- Claim C5 — on the success path, when the fetched submission carries no
user object, the returned submission's user is a synthesized placeholder with
`id = userId` and the non-empty name `"Student <userId>"`. -/
theorem claim_C5_missing_user_placeholder (env : GetSubmissionEnv) (sub : Submission)
    (cred : String × String)
    (hc : env.courseId.isEmpty = false) (ha : env.assignmentId.isEmpty = false)
    (hu : env.userId.isEmpty = false) (hs : env.session = true)
    (hcred : resolvedCreds env.settings env.metadata = some cred)
    (hsub : env.fetchSubmission = .ok (some sub))
    (huser : sub.user = none) :
    ∃ usr, getSubmissionHandler env = .success { sub with user := some usr }
      ∧ usr.id = env.userId
      ∧ usr.name = "Student " ++ env.userId
      ∧ usr.name.isEmpty = false := by
  refine ⟨placeholderUser env.userId, ?_, rfl, rfl, studentName_isEmpty_false _⟩
  simp [getSubmissionHandler, hc, ha, hu, hs, hcred, hsub, ensureUser, huser]

/-- Environment used by the witness of claim C5: the submission fetch returns
a submission without a user object. -/
def envC5 : GetSubmissionEnv :=
  { courseId := "c101"
    assignmentId := "a42"
    userId := "u7"
    session := true
    settings := some { canvas_url := some "https://x.example.edu", canvas_token := some "tok" }
    metadata := { canvas_url := none, canvas_token := none }
    fetchSubmission := .ok (some { id := "s1", user_id := "u7", assignment_id := "a42",
                                   user := none })
    fetchAssignment := .error "unused" }

/-- Witness for claim C5 at a concrete environment. -/
theorem claim_C5_witness :
    ∃ usr, getSubmissionHandler envC5
        = .success { id := "s1", user_id := "u7", assignment_id := "a42", user := some usr }
      ∧ usr.id = "u7"
      ∧ usr.name = "Student " ++ "u7"
      ∧ usr.name.isEmpty = false :=
  claim_C5_missing_user_placeholder envC5
    { id := "s1", user_id := "u7", assignment_id := "a42", user := none }
    ("https://x.example.edu", "tok") (by decide) (by decide) (by decide) rfl
    (by decide) rfl rfl

/-- Claim C8 — an authenticated PUT grade-update request for which credential
resolution finds no pair returns status 400 with exactly the message
`"Canvas credentials not found. Please complete onboarding."`, and the Canvas
API is never invoked. -/
theorem claim_C8_put_credentials_missing (env : PutSubmissionEnv)
    (hc : env.courseId.isEmpty = false) (ha : env.assignmentId.isEmpty = false)
    (hu : env.userId.isEmpty = false) (hs : env.session = true)
    (hcred : resolvedCreds env.settings env.metadata = none) :
    putSubmissionHandler env
      = (.jsonError "Canvas credentials not found. Please complete onboarding." 400, false)
    ∧ ((putSubmissionHandler env).1).status = 400
    ∧ (putSubmissionHandler env).2 = false := by
  have hh : putSubmissionHandler env
      = (.jsonError "Canvas credentials not found. Please complete onboarding." 400,
         false) := by
    simp [putSubmissionHandler, hc, ha, hu, hs, hcred]
  exact ⟨hh, by rw [hh]; rfl, by rw [hh]⟩

/-- Environment used by the witness of claim C8: no settings row and a
metadata bag missing its token, so credential resolution fails. -/
def envC8 : PutSubmissionEnv :=
  { courseId := "c101"
    assignmentId := "a42"
    userId := "u7"
    session := true
    settings := none
    metadata := { canvas_url := some "https://x.example.edu", canvas_token := none }
    body := .ok { posted_grade := "95", comment := some { text_comment := "Great work" } }
    updateResult := .ok { id := "s1", user_id := "u7", assignment_id := "a42", user := none } }

/-- Witness for claim C8 at a concrete environment. -/
theorem claim_C8_witness :
    putSubmissionHandler envC8
      = (.jsonError "Canvas credentials not found. Please complete onboarding." 400, false)
    ∧ ((putSubmissionHandler envC8).1).status = 400
    ∧ (putSubmissionHandler envC8).2 = false :=
  claim_C8_put_credentials_missing envC8 (by decide) (by decide) (by decide) rfl (by decide)

/-- No AI grading response carries status 401. -/
lemma aiResponse_status_ne_401 {α : Type} (r : AiResponse α) : r.status ≠ 401 := by
  cases r <;> simp [AiResponse.status]

/-- Claim C6 — when the language-model response text does not parse as JSON,
the AI grading handler returns status 500 with a body carrying an error field
and a `rawResponse` field equal to the original model text, unmodified, and
the model was invoked exactly once (no retry). -/
theorem claim_C6_parse_failure_surfaces_raw_text (α : Type) (parse : String → Option α)
    (env : AiEnv) (b : AiRequestBody) (text : String)
    (hb : env.body = .ok b)
    (hd : truthy b.assignmentDescription = true)
    (hcnt : truthy b.submissionContent = true)
    (hm : env.model (aiPrompt b) = .ok text)
    (hp : parse text = none) :
    aiGradeHandler parse env
      = (.parseError "Failed to parse AI response" text, [aiPrompt b])
    ∧ (AiResponse.parseError (α := α) "Failed to parse AI response" text).status = 500 := by
  constructor
  · simp [aiGradeHandler, hb, hd, hcnt, hm, hp]
  · rfl

/-- Request body used by the witness of claim C6. -/
def bodyC6 : AiRequestBody :=
  { assignmentDescription := some "Write an essay on entropy."
    submissionContent := some "Entropy always grows."
    pointsPossible := none
    rubric := none }

/-- Witness for claim C6 at a concrete environment whose model text is not
valid JSON. -/
theorem claim_C6_witness :
    aiGradeHandler (α := Unit) (fun _ => none)
        { body := .ok bodyC6, model := fun _ => .ok "I would give this a B." }
      = (.parseError "Failed to parse AI response" "I would give this a B.",
         [aiPrompt bodyC6])
    ∧ (AiResponse.parseError (α := Unit) "Failed to parse AI response"
        "I would give this a B.").status = 500 :=
  claim_C6_parse_failure_surfaces_raw_text Unit (fun _ => none)
    { body := .ok bodyC6, model := fun _ => .ok "I would give this a B." }
    bodyC6 "I would give this a B." rfl (by decide) (by decide) rfl rfl

/-- Claim C9 — the AI grading handler performs no authentication check: its
environment carries no session at all, it never returns status 401, and for
every request body holding both required fields it proceeds to build the
prompt and invoke the model (exactly one model call, carrying the constructed
prompt). -/
theorem claim_C9_no_auth_check (α : Type) (parse : String → Option α) (env : AiEnv) :
    AiResponse.status (aiGradeHandler parse env).1 ≠ 401
    ∧ (∀ b, env.body = .ok b → truthy b.assignmentDescription = true →
        truthy b.submissionContent = true →
        (aiGradeHandler parse env).2 = [aiPrompt b]) := by
  constructor
  · exact aiResponse_status_ne_401 _
  · intro b hb hd hcnt
    cases hm : env.model (aiPrompt b) with
    | error m => simp [aiGradeHandler, hb, hd, hcnt, hm]
    | ok text =>
        cases hp : parse text <;> simp [aiGradeHandler, hb, hd, hcnt, hm, hp]

/-- Request body used by the witness of claim C9. -/
def bodyC9 : AiRequestBody :=
  { assignmentDescription := some "Prove the law of cosines."
    submissionContent := some "By the dot product."
    pointsPossible := some "20"
    rubric := some "Correctness 15, clarity 5." }

/-- Witness for claim C9 at a concrete environment. -/
theorem claim_C9_witness :
    AiResponse.status
        (aiGradeHandler (α := Unit) (fun _ => none)
          { body := .ok bodyC9, model := fun _ => .ok "ok" }).1 ≠ 401
    ∧ (aiGradeHandler (α := Unit) (fun _ => none)
          { body := .ok bodyC9, model := fun _ => .ok "ok" }).2 = [aiPrompt bodyC9] :=
  ⟨(claim_C9_no_auth_check Unit (fun _ => none)
      { body := .ok bodyC9, model := fun _ => .ok "ok" }).1,
   (claim_C9_no_auth_check Unit (fun _ => none)
      { body := .ok bodyC9, model := fun _ => .ok "ok" }).2
      bodyC9 rfl (by decide) (by decide)⟩

end CanvasGrading
